import Mathlib

/-!
Verification of the QR-code PDF generator service (`src/qr_pdf_app.js`).

The development embeds the request handler of `POST /generate-qr-pdf` and its
pipeline (QR encoding, template loading, compositing, PDF assembly) as pure
Lean functions.  The third-party libraries the handler calls (`qrcode`,
`sharp`, `pdfkit`) are not part of the repository; where their behaviour
decides a claim they are modelled from the specification and marked as such
in their doc comments.  JavaScript numbers are modelled as exact rationals,
and `Math.round` as floor of x + 1/2 (ties toward positive infinity, as in
JavaScript).
-/

/-- JavaScript `Math.round`: nearest integer, ties rounding toward +∞. -/
def jsMathRound (q : ℚ) : ℤ := Int.floor (q + 1 / 2)

/-- Source constant `QR_SIZE = 384` (line 65): the fixed QR code side length. -/
def QR_SIZE : ℕ := 384

/-- JavaScript truthiness of an optional string request-body field:
`undefined` and the empty string are falsy, every other string is truthy. -/
def jsTruthy : Option String → Bool
  | none => false
  | some s => s ≠ ""

/-- Options object passed to `QRCode.toBuffer` (lines 85–93). -/
structure QROptions where
  errorCorrectionLevel : String
  margin : ℕ
  width : ℕ
  dark : String
  light : String
  deriving DecidableEq, Repr

/-- Raster buffer returned by the QR encoder.  Besides the pixel dimensions it
records the encoding parameters baked into the symbol, so that theorems can
speak about error-correction level, quiet zone and colours. -/
structure QRRaster where
  width : ℕ
  height : ℕ
  ecLevel : String
  margin : ℕ
  dark : String
  light : String
  content : String
  deriving DecidableEq, Repr

/-- A plain raster buffer with its pixel dimensions (the template asset). -/
structure Raster where
  width : ℕ
  height : ℕ
  deriving DecidableEq, Repr

/-- Modelled from the spec (§4.1): the `qrcode` library's capacity threshold
for error-correction level "high" (byte-mode capacity of the largest QR
symbol at level H).  The library itself is not part of the repository. -/
def qrCapacityH : ℕ := 1273

/-- Modelled from the spec (§4.1): `QRCode.toBuffer` of the `qrcode` library,
which is not part of the repository.  For input within the symbol capacity it
deterministically returns a square raster of the requested width honouring
the requested error-correction level, margin and colours; for input beyond
capacity it fails with an error and returns no partial output. -/
def QRCode.toBuffer (url : String) (opts : QROptions) : Except String QRRaster :=
  if url.length ≤ qrCapacityH then
    Except.ok
      { width := opts.width, height := opts.width,
        ecLevel := opts.errorCorrectionLevel, margin := opts.margin,
        dark := opts.dark, light := opts.light, content := url }
  else
    Except.error ("code length overflow")

/-- `generateQRCode` (lines 83–103): calls `QRCode.toBuffer` with
error-correction level "H", margin 1, width `QR_SIZE`, black on white; on any
encoder failure it rethrows `Failed to generate QR code`. -/
def generateQRCode (url : String) : Except String QRRaster :=
  match QRCode.toBuffer url
      { errorCorrectionLevel := "H", margin := 1, width := QR_SIZE,
        dark := "#000000", light := "#ffffff" } with
  | Except.ok qrBuffer => Except.ok qrBuffer
  | Except.error _ => Except.error ("Failed to generate QR code")

/-- The overlay descriptor `{ input, top, left }` handed to sharp (lines
172–176). -/
structure Overlay where
  input : QRRaster
  top : ℤ
  left : ℤ
  deriving DecidableEq, Repr

/-- The `qrOverlay` object of lines 172–176: top is the constant 481 and left
is `Math.round((templateWidth - QR_SIZE) / 2)`. -/
def qrOverlay (qrCodeBuffer : QRRaster) (templateWidth : ℕ) : Overlay :=
  { input := qrCodeBuffer,
    top := 481,
    left := jsMathRound (((templateWidth : ℚ) - (QR_SIZE : ℚ)) / 2) }

/-- Composited raster: the template with the overlay list stamped onto it.
The base pixels are irrelevant to every claim; the geometry is kept. -/
structure Composited where
  width : ℕ
  height : ℕ
  base : Raster
  overlays : List Overlay
  deriving DecidableEq, Repr

/-- Modelled from the spec (§4.3): sharp's `composite`, which is not part of
the repository.  It produces the template raster with the overlay stamped at
(left, top), and fails if the overlay would exceed the template bounds. -/
def composite (template : Raster) (ov : Overlay) : Except String Composited :=
  if ov.left + (ov.input.width : ℤ) > (template.width : ℤ) ∨
      ov.top + (ov.input.height : ℤ) > (template.height : ℤ) then
    Except.error ("GeometryError")
  else
    Except.ok
      { width := template.width, height := template.height,
        base := template, overlays := [ov] }

/-- One `doc.image` call: the image and the position and size arguments. -/
structure ImagePlacement where
  image : Composited
  x : ℤ
  y : ℤ
  width : ℕ
  height : ℕ
  deriving DecidableEq, Repr

/-- One `doc.text` call together with the font state it is issued under. -/
structure TextPlacement where
  font : String
  size : ℤ
  content : String
  x : ℤ
  y : ℤ
  align : String
  width : ℕ
  deriving DecidableEq, Repr

/-- The assembled PDF document: constructor arguments (page size, margin),
the page count, the drawing calls made, and whether `doc.end()` ran. -/
structure PdfDoc where
  size : ℕ × ℕ
  margin : ℕ
  pageCount : ℕ
  images : List ImagePlacement
  texts : List TextPlacement
  finalized : Bool
  deriving DecidableEq, Repr

/-- The two response headers set on the success path (lines 197–201). -/
structure RespHeaders where
  contentType : String
  contentDisposition : String
  deriving DecidableEq, Repr

/-- JSON `details` payloads: absent, the 400 field report, or the 500
message. -/
inductive Details where
  | noDetails : Details
  | fields (url : String) (authSecret : String) : Details
  | message (msg : String) : Details
  deriving DecidableEq, Repr

/-- A JSON error envelope `{ error, details? }`. -/
structure JsonBody where
  error : String
  details : Details
  deriving DecidableEq, Repr

/-- The HTTP response of the handler: a JSON body with a status code, or the
streamed PDF with its headers. -/
inductive Response where
  | json (status : ℕ) (body : JsonBody) : Response
  | pdf (headers : RespHeaders) (doc : PdfDoc) : Response
  deriving DecidableEq, Repr

/-- The HTTP status of a response (a streamed PDF is sent with status 200). -/
def Response.status : Response → ℕ
  | Response.json s _ => s
  | Response.pdf _ _ => 200

/-- The pipeline stages of §4.5 that the handler can invoke. -/
inductive Stage where
  | encodeQR : Stage
  | loadTemplate : Stage
  | compositeStage : Stage
  | assemble : Stage
  deriving DecidableEq, Repr

/-- The JSON request body `{ url, authSecret }`; each field is either absent
or a string. -/
structure RequestBody where
  url : Option String
  authSecret : Option String
  deriving DecidableEq, Repr

/-- Process environment: `AUTH_SECRET` (possibly unset), and the template
asset as sharp delivers it — a raster, or a load error when the file is
missing or undecodable. -/
structure Env where
  AUTH_SECRET : Option String
  templateAsset : Except String Raster
  deriving Repr

/-- What one run of the handler produces: the response, the pipeline stages
that were invoked, and the log lines (which carry the request id). -/
structure HandlerResult where
  response : Response
  stages : List Stage
  logs : List String
  deriving Repr

/-- The `POST /generate-qr-pdf` handler (lines 106–244).  `requestId` models
`Date.now().toString()`; it flows into the logs only.  Field presence is
checked by JavaScript truthiness (`!url || !authSecret`), the secret by
strict equality against `process.env.AUTH_SECRET` (`undefined` when unset),
and each pipeline failure is caught and turned into the 500 JSON envelope. -/
def generateQrPdf (env : Env) (body : RequestBody) (requestId : String) :
    HandlerResult :=
  let startLog := "Starting new PDF generation request " ++ requestId
  if jsTruthy body.url = false ∨ jsTruthy body.authSecret = false then
    { response := Response.json 400
        { error := "Missing required parameters",
          details := Details.fields
            (if jsTruthy body.url then "provided" else "missing")
            (if jsTruthy body.authSecret then "provided" else "missing") },
      stages := [],
      logs := [startLog, "Validation failed - missing parameters"] }
  else if body.authSecret ≠ env.AUTH_SECRET then
    { response := Response.json 401
        { error := "Invalid authentication secret", details := Details.noDetails },
      stages := [],
      logs := [startLog, "Authentication failed - invalid secret"] }
  else
    let url := body.url.getD ""
    match generateQRCode url with
    | Except.error msg =>
        { response := Response.json 500
            { error := "Failed to process image", details := Details.message msg },
          stages := [Stage.encodeQR],
          logs := [startLog, "Error during PDF generation"] }
    | Except.ok qrCodeBuffer =>
      match env.templateAsset with
      | Except.error msg =>
          { response := Response.json 500
              { error := "Failed to process image", details := Details.message msg },
            stages := [Stage.encodeQR, Stage.loadTemplate],
            logs := [startLog, "Error during PDF generation"] }
      | Except.ok templateBuffer =>
        let templateWidth := templateBuffer.width
        let templateHeight := templateBuffer.height
        let overlay := qrOverlay qrCodeBuffer templateWidth
        match composite templateBuffer overlay with
        | Except.error msg =>
            { response := Response.json 500
                { error := "Failed to process image", details := Details.message msg },
              stages := [Stage.encodeQR, Stage.loadTemplate, Stage.compositeStage],
              logs := [startLog, "Error during PDF generation"] }
        | Except.ok processedImage =>
            let fontSize := jsMathRound ((templateWidth : ℚ) * (3 / 100))
            let textY := jsMathRound ((templateHeight : ℚ) * (9 / 10))
            let doc : PdfDoc :=
              { size := (templateWidth, templateHeight),
                margin := 0,
                pageCount := 1,
                images := [{ image := processedImage, x := 0, y := 0,
                             width := templateWidth, height := templateHeight }],
                texts := [{ font := "Helvetica-Bold", size := fontSize,
                            content := url, x := 0, y := textY,
                            align := "center", width := templateWidth }],
                finalized := true }
            { response := Response.pdf
                { contentType := "application/pdf",
                  contentDisposition := "attachment; filename=qr-instructions.pdf" }
                doc,
              stages := [Stage.encodeQR, Stage.loadTemplate,
                         Stage.compositeStage, Stage.assemble],
              logs := [startLog, "PDF generation completed successfully"] }

/-- The QR overlays present in a response: those of the composited image the
PDF contains, none for a JSON response. -/
def responseOverlays : Response → List Overlay
  | Response.pdf _ doc => (doc.images.map fun p => p.image.overlays).flatten
  | Response.json _ _ => []

/-- The horizontal centre coordinate of an overlay placed at `left` with the
width of its raster. -/
def overlayCenterX (ov : Overlay) : ℚ := (ov.left : ℚ) + (ov.input.width : ℚ) / 2

/-! ## Concrete inputs used by witnesses and counterexamples -/

/-- A sample URL. -/
def urlEx : String := "https://example.com/x"

/-- A wrong (non-matching, non-empty) secret for witnesses. -/
def wrongSecretEx : String := "wrong"

/-- A fixed request id for witness runs. -/
def ridEx : String := "0"

/-- The raster the modelled encoder returns for an in-capacity input. -/
def qrRasterFor (url : String) : QRRaster :=
  { width := QR_SIZE, height := QR_SIZE, ecLevel := "H", margin := 1,
    dark := "#000000", light := "#ffffff", content := url }

/-- A sample configured secret. -/
def secretEx : String := "s3cret"

/-- The empty string, as a request-body field value. -/
def strEmpty : String := ""

/-- A sample template raster: 1000 × 1200 pixels. -/
def tmplEx : Raster := { width := 1000, height := 1200 }

/-- A sample environment: secret configured, template loads. -/
def envEx : Env :=
  { AUTH_SECRET := some secretEx, templateAsset := Except.ok tmplEx }

/-- An environment whose `AUTH_SECRET` variable is unset. -/
def envNoSecret : Env :=
  { AUTH_SECRET := none, templateAsset := Except.ok tmplEx }

/-- A fully valid request body for `envEx`. -/
def bodyEx : RequestBody := { url := some urlEx, authSecret := some secretEx }

/-- The QR raster the modelled encoder produces for `urlEx`. -/
def qrEx : QRRaster :=
  { width := 384, height := 384, ecLevel := "H", margin := 1,
    dark := "#000000", light := "#ffffff", content := urlEx }

/-- The overlay the handler computes for `qrEx` on the 1000-wide template. -/
def ovEx : Overlay := { input := qrEx, top := 481, left := 308 }

/-- The composited raster for the sample run. -/
def compositedEx : Composited :=
  { width := 1000, height := 1200, base := tmplEx, overlays := [ovEx] }

/-- The response headers of the success path. -/
def respHeadersEx : RespHeaders :=
  { contentType := "application/pdf",
    contentDisposition := "attachment; filename=qr-instructions.pdf" }

/-- The assembled PDF document for the sample run. -/
def docEx : PdfDoc :=
  { size := (1000, 1200), margin := 0, pageCount := 1,
    images := [{ image := compositedEx, x := 0, y := 0, width := 1000, height := 1200 }],
    texts := [{ font := "Helvetica-Bold", size := 30, content := urlEx,
                x := 0, y := 1080, align := "center", width := 1000 }],
    finalized := true }

/-! ## Helper lemmas about the handler's branches -/

/-- If a required field is falsy, the handler returns the 400 result. -/
theorem generateQrPdf_validation (env : Env) (body : RequestBody) (rid : String)
    (h : jsTruthy body.url = false ∨ jsTruthy body.authSecret = false) :
    generateQrPdf env body rid =
      { response := Response.json 400
          { error := "Missing required parameters",
            details := Details.fields
              (if jsTruthy body.url then "provided" else "missing")
              (if jsTruthy body.authSecret then "provided" else "missing") },
        stages := [],
        logs := ["Starting new PDF generation request " ++ rid,
                 "Validation failed - missing parameters"] } := by
  simp only [generateQrPdf, if_pos h]

/-- If both fields are truthy and the secret mismatches, the handler returns
the 401 result without running any pipeline stage. -/
theorem generateQrPdf_auth_mismatch (env : Env) (body : RequestBody) (rid : String)
    (hu : jsTruthy body.url = true) (ha : jsTruthy body.authSecret = true)
    (hne : body.authSecret ≠ env.AUTH_SECRET) :
    generateQrPdf env body rid =
      { response := Response.json 401
          { error := "Invalid authentication secret", details := Details.noDetails },
        stages := [],
        logs := ["Starting new PDF generation request " ++ rid,
                 "Authentication failed - invalid secret"] } := by
  have h1 : ¬(jsTruthy body.url = false ∨ jsTruthy body.authSecret = false) := by
    simp [hu, ha]
  simp only [generateQrPdf, if_neg h1, if_pos hne]

/-- Inversion of a successful QR encoding: the input was within capacity and
the raster carries exactly the parameters passed to the library. -/
theorem generateQRCode_ok_inv (url : String) (qr : QRRaster)
    (h : generateQRCode url = Except.ok qr) :
    url.length ≤ qrCapacityH ∧
    qr = { width := QR_SIZE, height := QR_SIZE, ecLevel := "H", margin := 1,
           dark := "#000000", light := "#ffffff", content := url } := by
  by_cases hl : url.length ≤ qrCapacityH
  · simp only [generateQRCode, QRCode.toBuffer, if_pos hl] at h
    exact ⟨hl, (Except.ok.inj h).symm⟩
  · simp only [generateQRCode, QRCode.toBuffer, if_neg hl] at h
    exact Except.noConfusion h

/-- Inversion of a successful composite: the result is the template raster
with the single overlay stamped on it. -/
theorem composite_ok_inv (template : Raster) (ov : Overlay) (img : Composited)
    (h : composite template ov = Except.ok img) :
    img = { width := template.width, height := template.height,
            base := template, overlays := [ov] } := by
  by_cases hg : ov.left + (ov.input.width : ℤ) > (template.width : ℤ) ∨
      ov.top + (ov.input.height : ℤ) > (template.height : ℤ)
  · simp only [composite, if_pos hg] at h
    exact Except.noConfusion h
  · simp only [composite, if_neg hg] at h
    exact (Except.ok.inj h).symm

/-- Inversion of a PDF response: it can only arise on the success path, and
its headers and document are exactly those the handler builds. -/
theorem generateQrPdf_pdf_inv (env : Env) (body : RequestBody) (rid : String)
    (hdrs : RespHeaders) (doc : PdfDoc)
    (h : (generateQrPdf env body rid).response = Response.pdf hdrs doc) :
    ∃ tmpl qr img,
      env.templateAsset = Except.ok tmpl ∧
      generateQRCode (body.url.getD "") = Except.ok qr ∧
      composite tmpl (qrOverlay qr tmpl.width) = Except.ok img ∧
      hdrs = { contentType := "application/pdf",
               contentDisposition := "attachment; filename=qr-instructions.pdf" } ∧
      doc = { size := (tmpl.width, tmpl.height), margin := 0, pageCount := 1,
              images := [{ image := img, x := 0, y := 0,
                           width := tmpl.width, height := tmpl.height }],
              texts := [{ font := "Helvetica-Bold",
                          size := jsMathRound ((tmpl.width : ℚ) * (3 / 100)),
                          content := body.url.getD "", x := 0,
                          y := jsMathRound ((tmpl.height : ℚ) * (9 / 10)),
                          align := "center", width := tmpl.width }],
              finalized := true } := by
  by_cases h1 : jsTruthy body.url = false ∨ jsTruthy body.authSecret = false
  · simp only [generateQrPdf, if_pos h1] at h
    exact Response.noConfusion h
  · by_cases h2 : body.authSecret ≠ env.AUTH_SECRET
    · simp only [generateQrPdf, if_neg h1, if_pos h2] at h
      exact Response.noConfusion h
    · cases hqr : generateQRCode (body.url.getD "") with
      | error msg =>
        simp only [generateQrPdf, if_neg h1, if_neg h2, hqr] at h
        exact Response.noConfusion h
      | ok qr =>
        cases htm : env.templateAsset with
        | error msg =>
          simp only [generateQrPdf, if_neg h1, if_neg h2, hqr, htm] at h
          exact Response.noConfusion h
        | ok tmpl =>
          cases hc : composite tmpl (qrOverlay qr tmpl.width) with
          | error msg =>
            simp only [generateQrPdf, if_neg h1, if_neg h2, hqr, htm, hc] at h
            exact Response.noConfusion h
          | ok img =>
            simp only [generateQrPdf, if_neg h1, if_neg h2, hqr, htm, hc] at h
            injection h with hh hd
            exact ⟨tmpl, qr, img, rfl, rfl, hc, hh.symm, hd.symm⟩

/-- Every overlay in a response sits at top 481, at the centred left offset,
and has the fixed QR width. -/
theorem mem_responseOverlays_inv (env : Env) (body : RequestBody) (rid : String)
    (tmpl : Raster) (htmpl : env.templateAsset = Except.ok tmpl)
    (ov : Overlay)
    (hov : ov ∈ responseOverlays (generateQrPdf env body rid).response) :
    ov.top = 481 ∧
    ov.left = jsMathRound (((tmpl.width : ℚ) - (QR_SIZE : ℚ)) / 2) ∧
    ov.input.width = QR_SIZE := by
  cases hresp : (generateQrPdf env body rid).response with
  | json status body' =>
    rw [hresp] at hov
    simp [responseOverlays] at hov
  | pdf hdrs doc =>
    obtain ⟨tmpl', qr, img, htm', hqr, hc, hhdrs, hdoc⟩ :=
      generateQrPdf_pdf_inv env body rid hdrs doc hresp
    rw [htmpl] at htm'
    injection htm' with htmeq
    subst htmeq
    have himg := composite_ok_inv tmpl (qrOverlay qr tmpl.width) img hc
    rw [hresp] at hov
    simp only [responseOverlays, hdoc, himg, List.map_cons, List.map_nil,
      List.flatten_cons, List.flatten_nil, List.append_nil, List.mem_singleton] at hov
    obtain ⟨hlen, hqrv⟩ := generateQRCode_ok_inv (body.url.getD "") qr hqr
    subst hov
    refine ⟨rfl, rfl, ?_⟩
    simp [qrOverlay, hqrv]


/-! ## Claims -/

/-- Claim C1 (amended): for every request whose `url` and `authSecret` are
supplied and non-empty and whose `authSecret` does not equal the configured
secret (including wrong-case and whitespace-altered variants), the response
is 401 with body `{ error: "Invalid authentication secret" }` and no
pipeline stage executes (in particular QR encoding is never invoked).  An
empty-string `authSecret` is instead rejected 400 by the truthiness
validation before the secret is compared. -/
theorem claim_C1 (env : Env) (body : RequestBody) (rid : String)
    (hu : jsTruthy body.url = true) (ha : jsTruthy body.authSecret = true)
    (hne : body.authSecret ≠ env.AUTH_SECRET) :
    (generateQrPdf env body rid).response =
      Response.json 401
        { error := "Invalid authentication secret", details := Details.noDetails } ∧
    (generateQrPdf env body rid).stages = [] := by
  rw [generateQrPdf_auth_mismatch env body rid hu ha hne]
  exact ⟨rfl, rfl⟩

/-- Claim C1 witness: a concrete wrong-secret request gets the 401 body and
an empty stage trace. -/
theorem claim_C1_witness :
    (generateQrPdf envEx { url := some urlEx, authSecret := some wrongSecretEx } ridEx).response =
      Response.json 401
        { error := "Invalid authentication secret", details := Details.noDetails } ∧
    (generateQrPdf envEx { url := some urlEx, authSecret := some wrongSecretEx } ridEx).stages = [] :=
  claim_C1 envEx { url := some urlEx, authSecret := some wrongSecretEx } ridEx
    (by decide) (by decide) (by decide)

/-- Claim C1 counterexample: the claim includes the empty-string secret, but
a request carrying `authSecret = ""` (which does not equal the configured
secret) is answered 400, not 401. -/
theorem claim_C1_counterexample :
    ({ url := some urlEx, authSecret := some strEmpty } : RequestBody).authSecret ≠
      envEx.AUTH_SECRET ∧
    (generateQrPdf envEx { url := some urlEx, authSecret := some strEmpty } ridEx).response.status = 400 ∧
    (generateQrPdf envEx { url := some urlEx, authSecret := some strEmpty } ridEx).response.status ≠ 401 := by
  refine ⟨?_, ?_, ?_⟩ <;> decide

/-- Claim C2 (amended): whenever `url` or `authSecret` is falsy (absent or
empty), the response is 400 with the `Missing required parameters` body, and
each details field is "provided" exactly when that field was supplied as a
non-empty string; a field supplied as the empty string is reported as
missing. -/
theorem claim_C2 (env : Env) (body : RequestBody) (rid : String)
    (h : jsTruthy body.url = false ∨ jsTruthy body.authSecret = false) :
    (generateQrPdf env body rid).response =
      Response.json 400
        { error := "Missing required parameters",
          details := Details.fields
            (if jsTruthy body.url then "provided" else "missing")
            (if jsTruthy body.authSecret then "provided" else "missing") } ∧
    (generateQrPdf env body rid).stages = [] := by
  rw [generateQrPdf_validation env body rid h]
  exact ⟨rfl, rfl⟩

/-- Claim C2 witness: a request with no `url` and a valid secret gets the 400
body reporting `url` missing and `authSecret` provided. -/
theorem claim_C2_witness :
    (generateQrPdf envEx { url := none, authSecret := some secretEx } ridEx).response =
      Response.json 400
        { error := "Missing required parameters",
          details := Details.fields
            (if jsTruthy (none : Option String) then "provided" else "missing")
            (if jsTruthy (some secretEx) then "provided" else "missing") } ∧
    (generateQrPdf envEx { url := none, authSecret := some secretEx } ridEx).stages = [] :=
  claim_C2 envEx { url := none, authSecret := some secretEx } ridEx (by decide)

/-- Claim C2 counterexample: `authSecret` supplied as the empty string is a
provided field, yet the 400 details report it as "missing". -/
theorem claim_C2_counterexample :
    ({ url := none, authSecret := some strEmpty } : RequestBody).authSecret ≠ none ∧
    (generateQrPdf envEx { url := none, authSecret := some strEmpty } ridEx).response =
      Response.json 400
        { error := "Missing required parameters",
          details := Details.fields "missing" "missing" } := by
  refine ⟨?_, ?_⟩ <;> decide

/-- Claim C3 (amended): for every request whose response carries a composited
image, the QR overlay's left-edge x offset equals round((W − S)/2), so its
center-x coordinate equals round((W − S)/2) + S/2 (not round((W − S)/2)
itself, as the original claim stated). -/
theorem claim_C3 (env : Env) (body : RequestBody) (rid : String) (tmpl : Raster)
    (htmpl : env.templateAsset = Except.ok tmpl) :
    ∀ ov ∈ responseOverlays (generateQrPdf env body rid).response,
      ov.left = jsMathRound (((tmpl.width : ℚ) - (QR_SIZE : ℚ)) / 2) ∧
      overlayCenterX ov =
        ((jsMathRound (((tmpl.width : ℚ) - (QR_SIZE : ℚ)) / 2) : ℤ) : ℚ) +
          (QR_SIZE : ℚ) / 2 := by
  intro ov hov
  obtain ⟨htop, hleft, hw⟩ := mem_responseOverlays_inv env body rid tmpl htmpl ov hov
  refine ⟨hleft, ?_⟩
  simp only [overlayCenterX, hleft, hw]

/-- Claim C3 witness: the concrete valid run places the overlay at left 308
with center-x 500 = 308 + 192. -/
theorem claim_C3_witness :
    ovEx.left = jsMathRound (((tmplEx.width : ℚ) - (QR_SIZE : ℚ)) / 2) ∧
    overlayCenterX ovEx =
      ((jsMathRound (((tmplEx.width : ℚ) - (QR_SIZE : ℚ)) / 2) : ℤ) : ℚ) +
        (QR_SIZE : ℚ) / 2 :=
  claim_C3 envEx bodyEx ridEx tmplEx rfl ovEx (by
    norm_num +decide [generateQrPdf, generateQRCode, QRCode.toBuffer, qrCapacityH,
      QR_SIZE, jsTruthy, envEx, bodyEx, tmplEx, urlEx, secretEx, composite,
      qrOverlay, jsMathRound, responseOverlays, qrEx, ovEx])

/-- Claim C3 counterexample: on the 1000 × 1200 template the composited
overlay's center-x is 500, while round((W − S)/2) is 308, so the claim's
equation fails as stated. -/
theorem claim_C3_counterexample :
    responseOverlays (generateQrPdf envEx bodyEx ridEx).response = [ovEx] ∧
    overlayCenterX ovEx = 500 ∧
    jsMathRound (((tmplEx.width : ℚ) - (QR_SIZE : ℚ)) / 2) = 308 ∧
    overlayCenterX ovEx ≠
      ((jsMathRound (((tmplEx.width : ℚ) - (QR_SIZE : ℚ)) / 2) : ℤ) : ℚ) := by
  refine ⟨?_, ?_, ?_, ?_⟩
  · norm_num +decide [generateQrPdf, generateQRCode, QRCode.toBuffer, qrCapacityH,
      QR_SIZE, jsTruthy, envEx, bodyEx, tmplEx, urlEx, secretEx, composite,
      qrOverlay, jsMathRound, responseOverlays, qrEx, ovEx]
  · norm_num [overlayCenterX, ovEx, qrEx]
  · norm_num [jsMathRound, tmplEx, QR_SIZE]
  · norm_num [overlayCenterX, ovEx, qrEx, jsMathRound, tmplEx, QR_SIZE]

/-- Claim C4: the generation pipeline is deterministic — the response (and
the stage trace) of a run is a function of the request body and the
environment alone; the per-request `Date.now()` request id influences the
logs only, never the response bytes. -/
theorem claim_C4 (env : Env) (body : RequestBody) (rid₁ rid₂ : String) :
    (generateQrPdf env body rid₁).response = (generateQrPdf env body rid₂).response ∧
    (generateQrPdf env body rid₁).stages = (generateQrPdf env body rid₂).stages := by
  by_cases h1 : jsTruthy body.url = false ∨ jsTruthy body.authSecret = false
  · simp only [generateQrPdf, if_pos h1]
    exact ⟨trivial, trivial⟩
  · by_cases h2 : body.authSecret ≠ env.AUTH_SECRET
    · simp only [generateQrPdf, if_neg h1, if_pos h2]
      exact ⟨trivial, trivial⟩
    · cases hqr : generateQRCode (body.url.getD "") with
      | error msg =>
        simp only [generateQrPdf, if_neg h1, if_neg h2, hqr]
        exact ⟨trivial, trivial⟩
      | ok qr =>
        cases htm : env.templateAsset with
        | error msg =>
          simp only [generateQrPdf, if_neg h1, if_neg h2, hqr, htm]
          exact ⟨trivial, trivial⟩
        | ok tmpl =>
          cases hc : composite tmpl (qrOverlay qr tmpl.width) with
          | error msg =>
            simp only [generateQrPdf, if_neg h1, if_neg h2, hqr, htm, hc]
            exact ⟨trivial, trivial⟩
          | ok img =>
            simp only [generateQrPdf, if_neg h1, if_neg h2, hqr, htm, hc]
            exact ⟨trivial, trivial⟩

/-- Claim C5: no partial-success response exists — every run answers either
with a JSON error body, or with a finalized PDF document containing exactly
its one image and one text drawing; a failing pipeline stage always yields
the JSON error, never a partially written PDF. -/
theorem claim_C5 (env : Env) (body : RequestBody) (rid : String) :
    (∃ status jb, (generateQrPdf env body rid).response = Response.json status jb) ∨
    (∃ hdrs doc, (generateQrPdf env body rid).response = Response.pdf hdrs doc ∧
      doc.finalized = true ∧ doc.images.length = 1 ∧ doc.texts.length = 1) := by
  by_cases h1 : jsTruthy body.url = false ∨ jsTruthy body.authSecret = false
  · rw [generateQrPdf_validation env body rid h1]
    exact Or.inl ⟨400, _, rfl⟩
  · by_cases h2 : body.authSecret ≠ env.AUTH_SECRET
    · obtain ⟨hu', ha'⟩ := not_or.mp h1
      have hu : jsTruthy body.url = true := by simpa using hu'
      have ha : jsTruthy body.authSecret = true := by simpa using ha'
      rw [generateQrPdf_auth_mismatch env body rid hu ha h2]
      exact Or.inl ⟨401, _, rfl⟩
    · cases hqr : generateQRCode (body.url.getD "") with
      | error msg =>
        simp only [generateQrPdf, if_neg h1, if_neg h2, hqr]
        exact Or.inl ⟨500, _, rfl⟩
      | ok qr =>
        cases htm : env.templateAsset with
        | error msg =>
          simp only [generateQrPdf, if_neg h1, if_neg h2, hqr, htm]
          exact Or.inl ⟨500, _, rfl⟩
        | ok tmpl =>
          cases hc : composite tmpl (qrOverlay qr tmpl.width) with
          | error msg =>
            simp only [generateQrPdf, if_neg h1, if_neg h2, hqr, htm, hc]
            exact Or.inl ⟨500, _, rfl⟩
          | ok img =>
            simp only [generateQrPdf, if_neg h1, if_neg h2, hqr, htm, hc]
            exact Or.inr ⟨_, _, rfl, rfl, rfl, rfl⟩

/-- Claim C6: every overlay placed on a composited image sits at the
horizontally centred offset round((W − S)/2) and at the fixed vertical
offset 481 from the top — a constant independent of the template height,
since the statement holds for templates of every height and the offsets
mention only the width. -/
theorem claim_C6 (env : Env) (body : RequestBody) (rid : String) (tmpl : Raster)
    (htmpl : env.templateAsset = Except.ok tmpl) :
    ∀ ov ∈ responseOverlays (generateQrPdf env body rid).response,
      ov.left = jsMathRound (((tmpl.width : ℚ) - (QR_SIZE : ℚ)) / 2) ∧
      ov.top = 481 := by
  intro ov hov
  obtain ⟨htop, hleft, _⟩ := mem_responseOverlays_inv env body rid tmpl htmpl ov hov
  exact ⟨hleft, htop⟩

/-- Claim C6 witness: the concrete run's overlay sits at left 308 = 
round((1000 − 384)/2) and top 481. -/
theorem claim_C6_witness :
    ovEx.left = jsMathRound (((tmplEx.width : ℚ) - (QR_SIZE : ℚ)) / 2) ∧
    ovEx.top = 481 :=
  claim_C6 envEx bodyEx ridEx tmplEx rfl ovEx (by
    norm_num +decide [generateQrPdf, generateQRCode, QRCode.toBuffer, qrCapacityH,
      QR_SIZE, jsTruthy, envEx, bodyEx, tmplEx, urlEx, secretEx, composite,
      qrOverlay, jsMathRound, responseOverlays, qrEx, ovEx])

/-- Claim C7: every PDF response is a single-page, zero-margin document whose
page size is exactly the template's pixel dimensions, containing the
composited image drawn at origin (0,0) stretched to exactly fill the page. -/
theorem claim_C7 (env : Env) (body : RequestBody) (rid : String)
    (hdrs : RespHeaders) (doc : PdfDoc)
    (h : (generateQrPdf env body rid).response = Response.pdf hdrs doc) :
    ∃ tmpl img,
      env.templateAsset = Except.ok tmpl ∧
      doc.size = (tmpl.width, tmpl.height) ∧
      doc.margin = 0 ∧
      doc.pageCount = 1 ∧
      doc.images = [{ image := img, x := 0, y := 0,
                      width := tmpl.width, height := tmpl.height }] ∧
      img.width = tmpl.width ∧ img.height = tmpl.height := by
  obtain ⟨tmpl, qr, img, htm, hqr, hc, hhdrs, hdoc⟩ :=
    generateQrPdf_pdf_inv env body rid hdrs doc h
  have himg := composite_ok_inv tmpl (qrOverlay qr tmpl.width) img hc
  subst hdoc
  exact ⟨tmpl, img, htm, rfl, rfl, rfl, rfl, by rw [himg], by rw [himg]⟩

/-- Claim C7 witness: the concrete valid run yields the 1000 × 1200
single-page zero-margin document with the full-bleed image at the origin. -/
theorem claim_C7_witness :
    ∃ tmpl img,
      envEx.templateAsset = Except.ok tmpl ∧
      docEx.size = (tmpl.width, tmpl.height) ∧
      docEx.margin = 0 ∧
      docEx.pageCount = 1 ∧
      docEx.images = [{ image := img, x := 0, y := 0,
                        width := tmpl.width, height := tmpl.height }] ∧
      img.width = tmpl.width ∧ img.height = tmpl.height :=
  claim_C7 envEx bodyEx ridEx respHeadersEx docEx (by
    norm_num +decide [generateQrPdf, generateQRCode, QRCode.toBuffer, qrCapacityH,
      QR_SIZE, jsTruthy, envEx, bodyEx, tmplEx, urlEx, secretEx, composite,
      qrOverlay, jsMathRound, qrEx, ovEx, compositedEx, respHeadersEx, docEx])

/-- Claim C8: every PDF response draws the URL as its single text layer in
Helvetica-Bold, horizontally centred over the full page width, with font
size round(0.03 × W) and y-coordinate round(0.9 × H). -/
theorem claim_C8 (env : Env) (body : RequestBody) (rid : String)
    (hdrs : RespHeaders) (doc : PdfDoc) (tmpl : Raster)
    (htmpl : env.templateAsset = Except.ok tmpl)
    (h : (generateQrPdf env body rid).response = Response.pdf hdrs doc) :
    doc.texts = [{ font := "Helvetica-Bold",
                   size := jsMathRound ((tmpl.width : ℚ) * (3 / 100)),
                   content := body.url.getD "", x := 0,
                   y := jsMathRound ((tmpl.height : ℚ) * (9 / 10)),
                   align := "center", width := tmpl.width }] := by
  obtain ⟨tmpl', qr, img, htm', hqr, hc, hhdrs, hdoc⟩ :=
    generateQrPdf_pdf_inv env body rid hdrs doc h
  rw [htmpl] at htm'
  injection htm' with htmeq
  subst htmeq
  subst hdoc
  rfl

/-- Claim C8 witness: the concrete run's text layer is the URL in
Helvetica-Bold, centred, size round(0.03 × 1000) at y round(0.9 × 1200). -/
theorem claim_C8_witness :
    docEx.texts = [{ font := "Helvetica-Bold",
                     size := jsMathRound ((tmplEx.width : ℚ) * (3 / 100)),
                     content := bodyEx.url.getD "", x := 0,
                     y := jsMathRound ((tmplEx.height : ℚ) * (9 / 10)),
                     align := "center", width := tmplEx.width }] :=
  claim_C8 envEx bodyEx ridEx respHeadersEx docEx tmplEx rfl (by
    norm_num +decide [generateQrPdf, generateQRCode, QRCode.toBuffer, qrCapacityH,
      QR_SIZE, jsTruthy, envEx, bodyEx, tmplEx, urlEx, secretEx, composite,
      qrOverlay, jsMathRound, qrEx, ovEx, compositedEx, respHeadersEx, docEx])

/-- Claim C9: for every URL within the capacity threshold, QR encoding
returns a square raster of side exactly `QR_SIZE` with error-correction
level "H", a 1-module margin, and black-on-white colours; for a URL beyond
capacity it fails with an error and returns no partial output. -/
theorem claim_C9 (url : String) :
    (url.length ≤ qrCapacityH ∧
      ∃ qr, generateQRCode url = Except.ok qr ∧ qr.width = QR_SIZE ∧
        qr.height = QR_SIZE ∧ qr.ecLevel = "H" ∧ qr.margin = 1 ∧
        qr.dark = "#000000" ∧ qr.light = "#ffffff") ∨
    (qrCapacityH < url.length ∧
      generateQRCode url = Except.error ("Failed to generate QR code")) := by
  by_cases h : url.length ≤ qrCapacityH
  · refine Or.inl ⟨h, ⟨qrRasterFor url, ?_, rfl, rfl, rfl, rfl, rfl, rfl⟩⟩
    simp only [generateQRCode, QRCode.toBuffer, if_pos h, qrRasterFor]
  · refine Or.inr ⟨not_le.mp h, ?_⟩
    simp only [generateQRCode, QRCode.toBuffer, if_neg h]

/-- Claim C10: with the `AUTH_SECRET` environment variable unset, every
request that passes field validation is rejected 401 regardless of the
supplied secret — an unset secret never grants access to the pipeline. -/
theorem claim_C10 (env : Env) (body : RequestBody) (rid : String)
    (hnone : env.AUTH_SECRET = none)
    (hu : jsTruthy body.url = true) (ha : jsTruthy body.authSecret = true) :
    (generateQrPdf env body rid).response =
      Response.json 401
        { error := "Invalid authentication secret", details := Details.noDetails } ∧
    (generateQrPdf env body rid).stages = [] := by
  have hne : body.authSecret ≠ env.AUTH_SECRET := by
    rw [hnone]
    cases hb : body.authSecret with
    | none => rw [hb] at ha; simp [jsTruthy] at ha
    | some s => simp
  rw [generateQrPdf_auth_mismatch env body rid hu ha hne]
  exact ⟨rfl, rfl⟩

/-- Claim C10 witness: with no configured secret even the otherwise-valid
sample request is answered 401 with no pipeline stage run. -/
theorem claim_C10_witness :
    (generateQrPdf envNoSecret bodyEx ridEx).response =
      Response.json 401
        { error := "Invalid authentication secret", details := Details.noDetails } ∧
    (generateQrPdf envNoSecret bodyEx ridEx).stages = [] :=
  claim_C10 envNoSecret bodyEx ridEx rfl (by decide) (by decide)
